import Mathlib

/-!
# Verification of the `MarqueeSlider` component (abundiko/react-marquee)

Shallow embedding of the marquee component's computations. JavaScript
numbers are modelled by `JSNum`: a finite rational, positive or negative
infinity, or NaN, with multiplication, division, truthiness (`||`) and
`Math.ceil` following the ECMAScript semantics on this domain (exact
rational arithmetic stands in for IEEE rounding; the special values and
zero tests, which the claims are about, are exact).

The measurement state (`mFactor`, `distance`) and the resize handler are
embedded as an explicit state-transition function; the style builders
(`animationStyleTransform`, `fadeStyle`) are embedded as pure functions
producing the strings the component emits.
-/

/-- A JavaScript number: finite rational, ±Infinity, or NaN. -/
inductive JSNum where
  | num (q : ℚ)
  | posInf
  | negInf
  | nan
deriving DecidableEq, Repr

namespace JSNum

/-- ECMAScript multiplication on `JSNum` (sign/NaN behaviour of IEEE `*`). -/
def mul : JSNum → JSNum → JSNum
  | nan, _ => nan
  | _, nan => nan
  | num a, num b => num (a * b)
  | num a, posInf => if a = 0 then nan else if 0 < a then posInf else negInf
  | num a, negInf => if a = 0 then nan else if 0 < a then negInf else posInf
  | posInf, num b => if b = 0 then nan else if 0 < b then posInf else negInf
  | negInf, num b => if b = 0 then nan else if 0 < b then negInf else posInf
  | posInf, posInf => posInf
  | posInf, negInf => negInf
  | negInf, posInf => negInf
  | negInf, negInf => posInf

/-- ECMAScript division on `JSNum`: division by zero gives ±Infinity
(NaN for 0/0), finite over infinite gives 0, Infinity/Infinity gives NaN. -/
def div : JSNum → JSNum → JSNum
  | nan, _ => nan
  | _, nan => nan
  | num a, num b =>
      if b = 0 then (if a = 0 then nan else if 0 < a then posInf else negInf)
      else num (a / b)
  | num _, posInf => num 0
  | num _, negInf => num 0
  | posInf, num b => if 0 ≤ b then posInf else negInf
  | negInf, num b => if 0 ≤ b then negInf else posInf
  | posInf, _ => nan
  | negInf, _ => nan

/-- JavaScript truthiness of a number: `0` and `NaN` are falsy,
every other number (including ±Infinity) is truthy. -/
def truthy : JSNum → Bool
  | num q => if q = 0 then false else true
  | nan => false
  | _ => true

/-- `Math.ceil`: ceiling on finite numbers, identity on ±Infinity and NaN. -/
def jsCeil : JSNum → JSNum
  | num q => num ((⌈q⌉ : ℤ) : ℚ)
  | posInf => posInf
  | negInf => negInf
  | nan => nan

end JSNum

/-- JavaScript `a || b`: `a` if truthy, else `b`. -/
def jsOr (a b : JSNum) : JSNum := if a.truthy then a else b

/-- The animation duration computed in the component's style `useMemo`:
`speed * (distance / balanceDistance) || 0` (seconds). -/
def animationDuration (speed distance balanceDistance : JSNum) : JSNum :=
  jsOr (JSNum.mul speed (JSNum.div distance balanceDistance)) (JSNum.num 0)

/-- A bounding client rect, reduced to the two sizes the component reads. -/
structure Rect where
  width : ℚ
  height : ℚ
deriving DecidableEq, Repr

/-- The component's measured state: `mFactor` (clone factor, from
`useState(1)`) and `distance` (content distance, from
`useState(balanceDistance)`). `mFactor` is a `JSNum` because the code
stores whatever `Math.ceil` of the division returns. -/
structure MarqueeState where
  mFactor : JSNum
  distance : ℚ
deriving DecidableEq, Repr

/-- Initial state: `useState(1)` for `mFactor`, `useState(balanceDistance)`
for `distance`. -/
def initialState (balanceDistance : ℚ) : MarqueeState :=
  { mFactor := JSNum.num 1, distance := balanceDistance }

/-- The `handleResize` closure: if either ref is unattached it returns
without updating; otherwise it stores the view rect's size along the
scroll axis as `distance`, and, when `clone` is set, stores
`Math.ceil(viewSize / holderSize)` as `mFactor`. -/
def handleResize (isVertical clone : Bool) (view holder : Option Rect)
    (s : MarqueeState) : MarqueeState :=
  match view, holder with
  | some viewRect, some holderRect =>
      let s1 : MarqueeState :=
        { s with distance := if isVertical then viewRect.height else viewRect.width }
      if clone then
        { s1 with mFactor := JSNum.jsCeil (if isVertical then
            JSNum.div (JSNum.num viewRect.height) (JSNum.num holderRect.height)
          else
            JSNum.div (JSNum.num viewRect.width) (JSNum.num holderRect.width)) }
      else s1
  | _, _ => s

/-- A measurement event: the view ref and holder ref contents (each `none`
when the element is not attached). -/
abbrev MeasureEvent : Type := Option Rect × Option Rect

/-- The state after a sequence of measurement cycles (mount measurement and
resize events), starting from the initial state. -/
def runMeasurements (isVertical clone : Bool) (balanceDistance : ℚ)
    (events : List MeasureEvent) : MarqueeState :=
  events.foldl (fun s e => handleResize isVertical clone e.1 e.2 s)
    (initialState balanceDistance)

/-- The `anim` transform target computed in `animationStyle`. -/
inductive Axis where
  | x
  | negx
  | y
  | negy
deriving DecidableEq, Repr

/-- The `anim` constant of `animationStyle`: the keyframe's 100% transform,
following the code's conditional chain
(`"-x"` first, then `"x"`, then `"y"`, else `"-y"`). -/
def animationStyleTransform (axis : Axis) : String :=
  if axis = Axis.negx then "translateX(100%)"
  else if axis = Axis.x then "translateX(-100%)"
  else if axis = Axis.y then "translateY(-100%)"
  else "translateY(100%)"

/-- The fade mode (`"start" | "end" | "both"`). -/
inductive Fade where
  | start
  | end_
  | both
deriving DecidableEq, Repr

/-- The `gradientDirection` computed in `fadeStyle`:
`"to right"` for horizontal axes, `"to bottom"` for vertical ones. -/
def gradientDirection (axis : Axis) : String :=
  if axis = Axis.x ∨ axis = Axis.negx then "to right" else "to bottom"

/-- The mask style object produced by `fadeStyle`. -/
structure FadeCSS where
  WebkitMaskImage : String
  WebkitMaskRepeat : String
  WebkitMaskSize : String
  maskImage : String
  maskRepeat : String
  maskSize : String
deriving DecidableEq, Repr

/-- The `fadeStyle` function: a linear-gradient mask along the scroll axis,
with edge colors chosen from the fade mode. -/
def fadeStyle (fade : Fade) (axis : Axis) : FadeCSS :=
  let start := if fade = Fade.start ∨ fade = Fade.both then "transparent" else "black"
  let end_ := if fade = Fade.end_ ∨ fade = Fade.both then "transparent" else "black"
  let gradient := "linear-gradient(" ++ gradientDirection axis ++ ", " ++ start ++
    ", black 20%, black 80%, " ++ end_ ++ ")"
  { WebkitMaskImage := gradient
    WebkitMaskRepeat := "no-repeat"
    WebkitMaskSize := "100% 100%"
    maskImage := gradient
    maskRepeat := "no-repeat"
    maskSize := "100% 100%" }

/-- The component's application of the fade style:
`...(props.fade ? fadeStyle(props.fade, axis) : {})`. -/
def appliedFade (fade : Option Fade) (axis : Axis) : Option FadeCSS :=
  match fade with
  | some f => some (fadeStyle f axis)
  | none => none

/-- The clone-factor invariant stated by the spec: the stored value is an
integer greater than or equal to 1. -/
def intGeOne (n : JSNum) : Prop := ∃ k : ℤ, n = JSNum.num (k : ℚ) ∧ 1 ≤ k

/-- Helper: the mask style `fadeStyle` builds around a gradient string
(the repeat and size fields are constants). -/
def maskOf (gradient : String) : FadeCSS :=
  { WebkitMaskImage := gradient, WebkitMaskRepeat := "no-repeat",
    WebkitMaskSize := "100% 100%", maskImage := gradient,
    maskRepeat := "no-repeat", maskSize := "100% 100%" }

/-- Helper: `handleResize` with a detached view element changes nothing. -/
theorem handleResize_noneView (isVertical clone : Bool) (holder : Option Rect)
    (s : MarqueeState) : handleResize isVertical clone none holder s = s := by
  cases holder <;> rfl

/-- Helper: `handleResize` with a detached holder element changes nothing. -/
theorem handleResize_noneHolder (isVertical clone : Bool) (view : Option Rect)
    (s : MarqueeState) : handleResize isVertical clone view none s = s := by
  cases view <;> rfl

/-- Helper: with cloning disabled, `handleResize` never touches `mFactor`. -/
theorem handleResize_false_mFactor (isVertical : Bool) (view holder : Option Rect)
    (s : MarqueeState) :
    (handleResize isVertical false view holder s).mFactor = s.mFactor := by
  cases view <;> cases holder <;> rfl

/-- Helper: with cloning enabled and both elements attached, `handleResize`
stores the ceiling of the axis-size quotient as `mFactor`. -/
theorem handleResize_clone_mFactor (isVertical : Bool) (v h : Rect)
    (s : MarqueeState) :
    (handleResize isVertical true (some v) (some h) s).mFactor
      = JSNum.jsCeil (JSNum.div
          (JSNum.num (if isVertical then v.height else v.width))
          (JSNum.num (if isVertical then h.height else h.width))) := by
  cases isVertical <;> rfl

/-- Claim C7: the keyframe's transform target matches the direction table:
axis "x" gives a −100% X translation, "-x" gives +100% X, "y" gives −100% Y,
and "-y" gives +100% Y. -/
theorem transform_matches_direction_table :
    animationStyleTransform Axis.x = "translateX(-100%)"
    ∧ animationStyleTransform Axis.negx = "translateX(100%)"
    ∧ animationStyleTransform Axis.y = "translateY(-100%)"
    ∧ animationStyleTransform Axis.negy = "translateY(100%)" :=
  ⟨rfl, rfl, rfl, rfl⟩

/-- Claim C8: for every axis, fade "start" masks only the leading edge to
transparent, "end" only the trailing edge, "both" both ends, with the band
from 20% to 80% along the scroll axis fully opaque (black) in all three
cases; fade `null` produces no mask properties at all. -/
theorem fade_mask_matches_spec (axis : Axis) :
    appliedFade none axis = none
    ∧ fadeStyle Fade.start axis = maskOf ("linear-gradient(" ++ gradientDirection axis
        ++ ", transparent, black 20%, black 80%, black)")
    ∧ fadeStyle Fade.end_ axis = maskOf ("linear-gradient(" ++ gradientDirection axis
        ++ ", black, black 20%, black 80%, transparent)")
    ∧ fadeStyle Fade.both axis = maskOf ("linear-gradient(" ++ gradientDirection axis
        ++ ", transparent, black 20%, black 80%, transparent)") := by
  refine ⟨rfl, ?_, ?_, ?_⟩ <;> cases axis <;> rfl

/-- Claim C1 (code bug): the `|| 0` guard in the style computation does NOT
force the duration to 0 for every speed and distance when
`balanceDistance = 0`: at speed 50 and distance 400 the division yields
Infinity, which is truthy, so `|| 0` passes it through and the non-finite
value reaches the animation style. -/
theorem zero_balance_duration_not_guarded :
    animationDuration (JSNum.num 50) (JSNum.num 400) (JSNum.num 0)
      = JSNum.posInf := by decide

/-- Claim C4 (code bug): with cloning enabled and a zero-sized holder,
`handleResize` stores `Math.ceil(viewSize / 0) = Infinity` as the clone
factor instead of the neutral default 1. -/
theorem zero_holder_clone_factor_not_guarded :
    (handleResize false true (some (Rect.mk 500 100)) (some (Rect.mk 0 0))
      (initialState 400)).mFactor = JSNum.posInf := by decide

/-- Claim C2, counterexample: the stored content distance is NOT the
holder's size along the scroll axis. With a horizontal axis, a view rect
of width 500 and a holder rect of width 200, the handler stores 500 (the
view's width), which differs from the holder's width. -/
theorem content_distance_not_holder_size :
    (handleResize false true (some (Rect.mk 500 100)) (some (Rect.mk 200 50))
      (initialState 400)).distance ≠ (Rect.mk 200 50).width := by decide

/-- Claim C2, amended: on every successful measurement cycle, the value
stored as content distance is the pixel size along the scroll axis of the
VIEW element (the visible viewport), not of the holder copy: the view
rect's height when the axis is vertical, its width when horizontal. -/
theorem content_distance_is_view_size (isVertical clone : Bool)
    (viewRect holderRect : Rect) (s : MarqueeState) :
    (handleResize isVertical clone (some viewRect) (some holderRect) s).distance
      = (if isVertical then viewRect.height else viewRect.width) := by
  cases clone <;> rfl

/-- Claim C9: whenever either measurement element is not attached,
`handleResize` performs no state update: the whole state (hence both the
stored content distance and the stored clone factor) is unchanged. -/
theorem missing_element_measurement_noop (isVertical clone : Bool)
    (view holder : Option Rect) (s : MarqueeState)
    (h : view = none ∨ holder = none) :
    handleResize isVertical clone view holder s = s := by
  rcases h with h | h
  · subst h; exact handleResize_noneView isVertical clone holder s
  · subst h; exact handleResize_noneHolder isVertical clone view s

/-- Witness for C9 at a concrete input: a detached view element with an
attached holder leaves the initial state untouched. -/
theorem missing_element_measurement_noop_w :
    handleResize false true none (some (Rect.mk 200 50)) (initialState 400)
      = initialState 400 :=
  missing_element_measurement_noop false true none (some (Rect.mk 200 50))
    (initialState 400) (Or.inl rfl)

/-- Claim C10: the content distance is initialized to `balanceDistance`
(by `useState(balanceDistance)`), so for every nonzero `balanceDistance`
the very first computed animation duration equals `speed` seconds. -/
theorem initial_duration_equals_speed (speed balanceDistance : ℚ)
    (h : balanceDistance ≠ 0) :
    (initialState balanceDistance).distance = balanceDistance
    ∧ animationDuration (JSNum.num speed)
        (JSNum.num (initialState balanceDistance).distance)
        (JSNum.num balanceDistance) = JSNum.num speed := by
  refine ⟨rfl, ?_⟩
  show jsOr (JSNum.mul (JSNum.num speed)
      (JSNum.div (JSNum.num balanceDistance) (JSNum.num balanceDistance)))
      (JSNum.num 0) = JSNum.num speed
  rw [show JSNum.div (JSNum.num balanceDistance) (JSNum.num balanceDistance)
      = JSNum.num 1 by simp [JSNum.div, h, div_self h]]
  rw [show JSNum.mul (JSNum.num speed) (JSNum.num 1) = JSNum.num speed by
    simp [JSNum.mul]]
  by_cases hs : speed = 0
  · subst hs; simp [jsOr, JSNum.truthy]
  · simp [jsOr, JSNum.truthy, hs]

/-- Witness for C10 at the component defaults: speed 50,
balanceDistance 400. -/
theorem initial_duration_equals_speed_w :
    (initialState 400).distance = 400
    ∧ animationDuration (JSNum.num 50) (JSNum.num (initialState 400).distance)
        (JSNum.num 400) = JSNum.num 50 :=
  initial_duration_equals_speed 50 400 (by norm_num)

/-- Claim C6: for every speed > 0, balanceDistance > 0 and content distance
≥ 0, the computed animation duration is exactly
`speed * (distance / balanceDistance)` seconds, and that value is ≥ 0. -/
theorem duration_formula_nonneg (speed distance balanceDistance : ℚ)
    (hs : 0 < speed) (hb : 0 < balanceDistance) (hd : 0 ≤ distance) :
    animationDuration (JSNum.num speed) (JSNum.num distance)
        (JSNum.num balanceDistance)
      = JSNum.num (speed * (distance / balanceDistance))
    ∧ 0 ≤ speed * (distance / balanceDistance) := by
  have hb0 : balanceDistance ≠ 0 := ne_of_gt hb
  constructor
  · show jsOr (JSNum.mul (JSNum.num speed)
        (JSNum.div (JSNum.num distance) (JSNum.num balanceDistance)))
        (JSNum.num 0) = _
    rw [show JSNum.div (JSNum.num distance) (JSNum.num balanceDistance)
        = JSNum.num (distance / balanceDistance) by simp [JSNum.div, hb0]]
    rw [show JSNum.mul (JSNum.num speed) (JSNum.num (distance / balanceDistance))
        = JSNum.num (speed * (distance / balanceDistance)) by simp [JSNum.mul]]
    by_cases h0 : speed * (distance / balanceDistance) = 0
    · simp [jsOr, JSNum.truthy, h0]
    · simp [jsOr, JSNum.truthy, h0]
  · positivity

/-- Witness for C6 at speed 50, distance 400, balanceDistance 400. -/
theorem duration_formula_nonneg_w :
    animationDuration (JSNum.num 50) (JSNum.num 400) (JSNum.num 400)
      = JSNum.num (50 * (400 / 400))
    ∧ 0 ≤ (50 : ℚ) * (400 / 400) :=
  duration_formula_nonneg 50 400 400 (by norm_num) (by norm_num) (by norm_num)

/-- Helper: with cloning disabled, no measurement cycle in a run ever
changes `mFactor`. -/
theorem foldl_handleResize_false_mFactor (isVertical : Bool)
    (events : List MeasureEvent) :
    ∀ s : MarqueeState,
      (events.foldl (fun s e => handleResize isVertical false e.1 e.2 s) s).mFactor
        = s.mFactor := by
  induction events with
  | nil => intro s; rfl
  | cons e es ih =>
      intro s
      rw [List.foldl_cons, ih, handleResize_false_mFactor]

/-- Claim C5: with `clone = false` the clone factor stays exactly 1 across
every sequence of measurement cycles; with `clone = true` a successful
measurement stores `Math.ceil(viewSize / holderSize)` along the scroll
axis; in particular a viewport 3.2 times the holder size gives clone
factor 4. -/
theorem clone_factor_rule :
    (∀ (isVertical : Bool) (balanceDistance : ℚ) (events : List MeasureEvent),
        (runMeasurements isVertical false balanceDistance events).mFactor
          = JSNum.num 1)
    ∧ (∀ (isVertical : Bool) (viewRect holderRect : Rect) (s : MarqueeState),
        (handleResize isVertical true (some viewRect) (some holderRect) s).mFactor
          = JSNum.jsCeil (JSNum.div
              (JSNum.num (if isVertical then viewRect.height else viewRect.width))
              (JSNum.num (if isVertical then holderRect.height else holderRect.width))))
    ∧ (handleResize false true (some (Rect.mk 32 10)) (some (Rect.mk 10 10))
        (initialState 400)).mFactor = JSNum.num 4 := by
  refine ⟨?_, ?_, ?_⟩
  · intro isVertical balanceDistance events
    exact foldl_handleResize_false_mFactor isVertical events (initialState balanceDistance)
  · intro isVertical viewRect holderRect s
    exact handleResize_clone_mFactor isVertical viewRect holderRect s
  · rw [handleResize_clone_mFactor]
    have h10 : ((10 : ℚ) ≠ 0) := by norm_num
    simp only [JSNum.div, JSNum.jsCeil, Rect.mk.injEq, if_false, Bool.false_eq_true,
      ite_false]
    norm_num [JSNum.jsCeil]
    have hceil : (⌈(16 : ℚ) / 5⌉ : ℤ) = 4 := by
      rw [Int.ceil_eq_iff]
      norm_num
    rw [hceil]
    norm_num

/-- Claim C3, counterexample: a measurement with a zero-sized viewport and
a positive holder stores `Math.ceil(0 / 200) = 0` as the clone factor,
violating the invariant that it is always an integer ≥ 1. -/
theorem clone_factor_invariant_cex :
    ¬ intGeOne ((runMeasurements false true 400
        [(some (Rect.mk 0 0), some (Rect.mk 200 50))]).mFactor) := by
  have h : (runMeasurements false true 400
      [(some (Rect.mk 0 0), some (Rect.mk 200 50))]).mFactor = JSNum.num 0 := by
    show (handleResize false true (some (Rect.mk 0 0)) (some (Rect.mk 200 50))
        (initialState 400)).mFactor = JSNum.num 0
    rw [handleResize_clone_mFactor]
    norm_num [JSNum.div, JSNum.jsCeil]
  rw [h]
  rintro ⟨k, hk, hk1⟩
  have hk0 : ((0 : ℚ)) = (k : ℚ) := by injection hk
  have hk2 : k = 0 := by exact_mod_cast hk0.symm
  omega

/-- Helper: one measurement cycle preserves the clone-factor invariant when
any successful measurement has positive view and holder sizes along the
scroll axis. -/
theorem handleResize_mFactor_geOne (isVertical clone : Bool)
    (view holder : Option Rect) (s : MarqueeState)
    (hs : intGeOne s.mFactor)
    (hpos : ∀ v h : Rect, view = some v → holder = some h →
      0 < (if isVertical then v.height else v.width)
      ∧ 0 < (if isVertical then h.height else h.width)) :
    intGeOne (handleResize isVertical clone view holder s).mFactor := by
  cases view with
  | none => rw [handleResize_noneView]; exact hs
  | some v =>
      cases holder with
      | none => rw [handleResize_noneHolder]; exact hs
      | some hR =>
          obtain ⟨hv, hh⟩ := hpos v hR rfl rfl
          cases clone with
          | false => rw [handleResize_false_mFactor]; exact hs
          | true =>
              rw [handleResize_clone_mFactor]
              have hb0 : (if isVertical then hR.height else hR.width) ≠ 0 :=
                ne_of_gt hh
              rw [show JSNum.div
                  (JSNum.num (if isVertical then v.height else v.width))
                  (JSNum.num (if isVertical then hR.height else hR.width))
                  = JSNum.num ((if isVertical then v.height else v.width)
                      / (if isVertical then hR.height else hR.width)) by
                simp [JSNum.div, hb0]]
              refine ⟨⌈(if isVertical then v.height else v.width)
                  / (if isVertical then hR.height else hR.width)⌉, rfl, ?_⟩
              have hpos2 : 0 < (if isVertical then v.height else v.width)
                  / (if isVertical then hR.height else hR.width) := div_pos hv hh
              have hc := Int.ceil_pos.mpr hpos2
              omega

/-- Helper: the clone-factor invariant is preserved across a whole run of
measurement cycles with positive measured sizes. -/
theorem foldl_mFactor_geOne (isVertical clone : Bool) :
    ∀ (events : List MeasureEvent) (s : MarqueeState),
      intGeOne s.mFactor →
      (∀ e ∈ events, ∀ v h : Rect, e.1 = some v → e.2 = some h →
        0 < (if isVertical then v.height else v.width)
        ∧ 0 < (if isVertical then h.height else h.width)) →
      intGeOne ((events.foldl
        (fun s e => handleResize isVertical clone e.1 e.2 s) s).mFactor) := by
  intro events
  induction events with
  | nil => intro s hs _; exact hs
  | cons e es ih =>
      intro s hs hpos
      rw [List.foldl_cons]
      refine ih _ ?_ ?_
      · exact handleResize_mFactor_geOne isVertical clone e.1 e.2 s hs
          (fun v h hv hh => hpos e (List.mem_cons_self e es) v h hv hh)
      · intro e' he' v h hv hh
        exact hpos e' (List.mem_cons_of_mem e he') v h hv hh

/-- Claim C3, amended: the stored clone factor is an integer ≥ 1 initially
and after every sequence of measurement cycles in which each successful
measurement (both elements attached) has positive viewport and holder
sizes along the scroll axis. (A zero-sized viewport with a positive
holder yields clone factor 0, so the unrestricted invariant fails.) -/
theorem clone_factor_ge_one_amended (isVertical clone : Bool)
    (balanceDistance : ℚ) (events : List MeasureEvent)
    (hpos : ∀ e ∈ events, ∀ v h : Rect, e.1 = some v → e.2 = some h →
      0 < (if isVertical then v.height else v.width)
      ∧ 0 < (if isVertical then h.height else h.width)) :
    intGeOne (runMeasurements isVertical clone balanceDistance events).mFactor :=
  foldl_mFactor_geOne isVertical clone events (initialState balanceDistance)
    ⟨1, by simp [initialState], le_refl 1⟩ hpos

/-- Witness for the amended C3: one successful horizontal measurement with
viewport width 300 and holder width 100 keeps the invariant. -/
theorem clone_factor_ge_one_amended_w :
    intGeOne ((runMeasurements false true 400
      [(some (Rect.mk 300 40), some (Rect.mk 100 20))]).mFactor) :=
  clone_factor_ge_one_amended false true 400
    [(some (Rect.mk 300 40), some (Rect.mk 100 20))]
    (by
      intro e he v h hv hh
      simp only [List.mem_singleton] at he
      subst he
      simp only at hv hh
      injection hv with hv
      injection hh with hh
      subst hv
      subst hh
      constructor <;> norm_num)
